import Mathlib

/-!
Verification of the `DBPool` connection pool from `src/pooling.py`.

Shallow embedding conventions:
* `time.time()` values are modelled as `Int` timestamps supplied explicitly at
  each call site (parameter `now`).
* Driver handles (`psycopg2` connection objects) are modelled as `Nat`
  identifiers; the fallible driver call `psycopg2.connect(...)` is modelled as
  an externally supplied outcome `Except Nat Nat` (error code, or fresh handle).
* Side effects on handles (`close()`, `commit()`, `rollback()`, `time.sleep`)
  are recorded as an explicit event trace `List Event`; logging is ignored.
* The caller-supplied unit of work inside a scoped access is modelled as a
  function from the exposed handle to `Except Nat A` (raised error code, or
  normal result).
-/

namespace Pooling

/-- One connection record, the dictionary built by `DBPool._create_connection`:
`{'connection': ..., 'last_update': 0, 'creation_date': time.time()}`. -/
structure ConnRecord where
  connection : Nat
  last_update : Int
  creation_date : Int
  deriving Repr, DecidableEq

/-- The pool state: the fields of `DBPool` mutated by its methods.
`_connection_pool` is the Python list (append at the end, `pop()` from the
end), `connection_pointer` the live-connection count, `_pool_size` the
capacity, `connection_ttl` the TTL.  The stored driver credentials
(user, password, db name, host, port) only feed the driver call, which is
modelled as an external outcome, so they are not part of the state. -/
structure DBPool where
  _connection_pool : List ConnRecord
  connection_pointer : Int
  _pool_size : Int
  connection_ttl : Int
  deriving Repr, DecidableEq

/-- Observable side effects performed on driver handles, plus the
`time.sleep(POOL_DELAY)` call in the acquisition loop. -/
inductive Event where
  | closed (handle : Nat)
  | committed (handle : Nat)
  | rolledBack (handle : Nat)
  | slept
  deriving Repr, DecidableEq

/-- `DBPool.__init__`: empty idle list, `connection_pointer = 0`, stores
`pool_size` and `ttl`.  No connections are created eagerly. -/
def DBPool.init (ttl pool_size : Int) : DBPool :=
  { _connection_pool := [], connection_pointer := 0,
    _pool_size := pool_size, connection_ttl := ttl }

/-- `DBPool._close_connection`: decrements `connection_pointer` and calls
`connection['connection'].close()` (recorded as a `closed` event). -/
def _close_connection (s : DBPool) (c : ConnRecord) : DBPool × List Event :=
  ({ s with connection_pointer := s.connection_pointer - 1 },
   [Event.closed c.connection])

/-- `DBPool._push_connection`: sets `last_update = time.time()` and appends
the record to `_connection_pool`. -/
def _push_connection (s : DBPool) (c : ConnRecord) (now : Int) : DBPool :=
  { s with _connection_pool :=
      s._connection_pool ++ [{ c with last_update := now }] }

/-- `DBPool._create_connection`: calls `psycopg2.connect(...)` (outcome
supplied externally) and on success builds the record with
`last_update = 0` and `creation_date = time.time()`.  A driver failure
propagates as the `Except.error` case; nothing else happens first. -/
def _create_connection (connectResult : Except Nat Nat) (now : Int) :
    Except Nat ConnRecord :=
  match connectResult with
  | Except.error e => Except.error e
  | Except.ok h =>
      Except.ok { connection := h, last_update := 0, creation_date := now }

/-- Result of one iteration of the `while not connection` loop in
`DBPool._get_connection`. -/
inductive GetStepResult where
  | got (c : ConnRecord) (s : DBPool)
  | retry (s : DBPool)
  | failed (e : Nat) (s : DBPool)
  deriving Repr, DecidableEq

/-- One iteration of the loop body of `DBPool._get_connection`:
if `self._connection_pool` is non-empty, `pop()` the last record; else if
`connection_pointer < _pool_size`, create a connection and increment the
counter (a driver failure propagates before the increment); else fall
through to `time.sleep(POOL_DELAY)` and retry. -/
def getConnectionStep (s : DBPool) (connectResult : Except Nat Nat)
    (now : Int) : GetStepResult :=
  match s._connection_pool.getLast? with
  | some c =>
      GetStepResult.got c { s with _connection_pool := s._connection_pool.dropLast }
  | none =>
      if s.connection_pointer < s._pool_size then
        match _create_connection connectResult now with
        | Except.error e => GetStepResult.failed e s
        | Except.ok c =>
            GetStepResult.got c
              { s with connection_pointer := s.connection_pointer + 1 }
      else
        GetStepResult.retry s

/-- `DBPool._get_connection` as a fuel-bounded loop.  `conns` and `times`
supply the driver outcome and `time.time()` value for each iteration;
`none` means the fuel ran out while the loop was still polling.  A `slept`
event is recorded on every completed iteration, matching the unconditional
`time.sleep(POOL_DELAY)` in the loop body. -/
def _get_connection : Nat → DBPool → (Nat → Except Nat Nat) → (Nat → Int) →
    Option (Except Nat (ConnRecord × DBPool) × List Event)
  | 0, _, _, _ => none
  | fuel + 1, s, conns, times =>
      match getConnectionStep s (conns 0) (times 0) with
      | GetStepResult.got c s1 => some (Except.ok (c, s1), [Event.slept])
      | GetStepResult.failed e _ => some (Except.error e, [])
      | GetStepResult.retry _ =>
          match _get_connection fuel s (fun n => conns (n + 1))
              (fun n => times (n + 1)) with
          | none => none
          | some (r, evs) => some (r, Event.slept :: evs)

/-- Lines 77–80 of `DBPool.manager` (identical to lines 97–100 of
`DBPool.transaction`): the release-on-success step.  Note the source tests
`connection['creation_date'] + self.connection_ttl < time.time()` and pushes
when that holds, closing otherwise. -/
def releaseOnSuccess (s : DBPool) (c : ConnRecord) (now : Int) :
    DBPool × List Event :=
  if c.creation_date + s.connection_ttl < now then
    (_push_connection s c now, [])
  else
    _close_connection s c

/-- The body of `DBPool.manager` after `_get_connection` returned record `c`:
yield the handle to the work; if the work raises, `_close_connection` and
re-raise; otherwise run the TTL check of lines 77–80. -/
def managerBody {A : Type} (s : DBPool) (c : ConnRecord)
    (work : Nat → Except Nat A) (now : Int) :
    Except Nat A × DBPool × List Event :=
  match work c.connection with
  | Except.error e =>
      match _close_connection s c with
      | (s1, evs) => (Except.error e, s1, evs)
  | Except.ok a =>
      match releaseOnSuccess s c now with
      | (s1, evs) => (Except.ok a, s1, evs)

/-- The body of `DBPool.transaction` after `_get_connection` returned record
`c`: open a cursor, yield it to the work; on success `commit()` then the TTL
check of lines 97–100; on failure `rollback()` and re-raise — the source's
`except` branch performs no `_close_connection` and no push, leaving the
pool state unchanged. -/
def transactionBody {A : Type} (s : DBPool) (c : ConnRecord)
    (work : Nat → Except Nat A) (now : Int) :
    Except Nat A × DBPool × List Event :=
  match work c.connection with
  | Except.error e =>
      (Except.error e, s, [Event.rolledBack c.connection])
  | Except.ok a =>
      match releaseOnSuccess s c now with
      | (s1, evs) => (Except.ok a, s1, Event.committed c.connection :: evs)

/-- `DBPool.__del__`: iterate over `self._connection_pool` and call
`_close_connection` on every record, threading the state and collecting the
events. -/
def destroyLoop : DBPool → List ConnRecord → DBPool × List Event
  | s, [] => (s, [])
  | s, c :: rest =>
      match _close_connection s c with
      | (s1, evs) =>
          match destroyLoop s1 rest with
          | (s2, evs2) => (s2, evs ++ evs2)

/-- `DBPool.__del__` applied to the pool's own idle list. -/
def __del__ (s : DBPool) : DBPool × List Event :=
  destroyLoop s s._connection_pool

/-- Labels for the pool operations a client can perform, for trace-based
invariants.  `acquire` carries the driver outcome and the current time for
one acquisition step; `releaseSuccess` / `releaseFailure` release the most
recently checked-out record on the success / failure path of a scope. -/
inductive PoolOp where
  | acquire (connectResult : Except Nat Nat) (now : Int)
  | releaseSuccess (now : Int)
  | releaseFailure
  deriving Repr

/-- Whole-system state for traces: the pool plus the records currently
checked out by in-flight scoped accesses. -/
structure SysState where
  pool : DBPool
  checkedOut : List ConnRecord
  deriving Repr, DecidableEq

/-- One trace step.  An `acquire` that would block (`retry`) or whose driver
call failed leaves the state unchanged; a release of a record when nothing
is checked out is a no-op. -/
def stepOp (st : SysState) : PoolOp → SysState
  | PoolOp.acquire cr now =>
      match getConnectionStep st.pool cr now with
      | GetStepResult.got c s1 => { pool := s1, checkedOut := c :: st.checkedOut }
      | GetStepResult.retry _ => st
      | GetStepResult.failed _ _ => st
  | PoolOp.releaseSuccess now =>
      match st.checkedOut with
      | [] => st
      | c :: rest => { pool := (releaseOnSuccess st.pool c now).1, checkedOut := rest }
  | PoolOp.releaseFailure =>
      match st.checkedOut with
      | [] => st
      | c :: rest => { pool := (_close_connection st.pool c).1, checkedOut := rest }

/-- Run a list of operations from a state. -/
def runOps : SysState → List PoolOp → SysState
  | st, [] => st
  | st, op :: ops => runOps (stepOp st op) ops

end Pooling

namespace Pooling

/-! ## Helper lemmas -/

theorem getConnectionStep_got (s : DBPool) (cr : Except Nat Nat) (now : Int)
    (hinv : s.connection_pointer ≤ s._pool_size) :
    ∀ c s1, getConnectionStep s cr now = GetStepResult.got c s1 →
      s1.connection_pointer ≤ s1._pool_size ∧ s1._pool_size = s._pool_size := by
  intro c s1 hstep
  unfold getConnectionStep at hstep
  split at hstep
  · cases hstep
    exact ⟨hinv, rfl⟩
  · split at hstep
    · unfold _create_connection at hstep
      split at hstep
      · cases hstep
      · cases hstep
        refine ⟨?_, rfl⟩
        show s.connection_pointer + 1 ≤ s._pool_size
        omega
    · cases hstep

/-- The capacity invariant as a predicate on the pool state. -/
def Inv (cap : Int) (p : DBPool) : Prop :=
  p._pool_size = cap ∧ p.connection_pointer ≤ cap

theorem stepOp_inv (cap : Int) (st : SysState) (op : PoolOp)
    (hinv : Inv cap st.pool) : Inv cap (stepOp st op).pool := by
  obtain ⟨hsize, hle⟩ := hinv
  cases op with
  | acquire cr now =>
    simp only [stepOp]
    split
    · case _ c s1 heq =>
      have h2 := getConnectionStep_got st.pool cr now (by omega) c s1 heq
      show Inv cap s1
      exact ⟨by omega, by omega⟩
    · exact ⟨hsize, hle⟩
    · exact ⟨hsize, hle⟩
  | releaseSuccess now =>
    simp only [stepOp]
    split
    · exact ⟨hsize, hle⟩
    · case _ c rest heq =>
      show Inv cap (releaseOnSuccess st.pool c now).1
      unfold releaseOnSuccess _push_connection _close_connection
      split
      · exact ⟨hsize, hle⟩
      · refine ⟨hsize, ?_⟩
        show st.pool.connection_pointer - 1 ≤ cap
        omega
  | releaseFailure =>
    simp only [stepOp]
    split
    · exact ⟨hsize, hle⟩
    · case _ c rest heq =>
      show Inv cap (_close_connection st.pool c).1
      refine ⟨hsize, ?_⟩
      show st.pool.connection_pointer - 1 ≤ cap
      omega

theorem runOps_inv (cap : Int) (ops : List PoolOp) :
    ∀ st, Inv cap st.pool → Inv cap (runOps st ops).pool := by
  induction ops with
  | nil => intro st h; exact h
  | cons op rest ih =>
    intro st h
    exact ih _ (stepOp_inv cap st op h)

theorem destroyLoop_events (l : List ConnRecord) :
    ∀ s, (destroyLoop s l).2 = l.map (fun c => Event.closed c.connection) := by
  induction l with
  | nil => intro s; rfl
  | cons c rest ih =>
    intro s
    show (destroyLoop s (c :: rest)).2 = _
    unfold destroyLoop _close_connection
    simp [ih]

/-! ## Claims -/

/-- C1: the claim says a record released on the success path with
`createdAt + ttl >= now` is pushed back onto the idle set with `liveCount`
unchanged, and otherwise the handle is closed and `liveCount` decremented.
The code at lines 77–80 does the exact opposite: with `creation_date = 0`,
`ttl = 10`, `now = 5` (within lifetime, since `0 + 10 >= 5`) the successful
scope closes handle 7, decrements `connection_pointer` from 1 to 0 and
leaves the idle list empty; with `now = 20` (past lifetime, `0 + 10 < 20`)
it pushes the record back with `last_update = 20` and `connection_pointer`
unchanged. -/
theorem c1_ttl_check_inverted :
    (0 : Int) + 10 ≥ 5 ∧
    managerBody (A := Nat)
      { _connection_pool := [], connection_pointer := 1,
        _pool_size := 5, connection_ttl := 10 }
      { connection := 7, last_update := 0, creation_date := 0 }
      (fun _ => Except.ok 0) 5 =
      (Except.ok 0,
       { _connection_pool := [], connection_pointer := 0,
         _pool_size := 5, connection_ttl := 10 },
       [Event.closed 7]) ∧
    managerBody (A := Nat)
      { _connection_pool := [], connection_pointer := 1,
        _pool_size := 5, connection_ttl := 10 }
      { connection := 7, last_update := 0, creation_date := 0 }
      (fun _ => Except.ok 0) 20 =
      (Except.ok 0,
       { _connection_pool := [{ connection := 7, last_update := 20, creation_date := 0 }],
         connection_pointer := 1, _pool_size := 5, connection_ttl := 10 },
       []) :=
  ⟨by decide, rfl, rfl⟩

/-- C2: starting from a freshly constructed pool with capacity at least 1,
`connection_pointer` (the live count) never exceeds `_pool_size` (the
capacity) under any sequence of acquire / release-on-success /
release-on-failure operations. -/
theorem capacity_invariant (ttl cap : Int) (hcap : 1 ≤ cap) (ops : List PoolOp) :
    (runOps { pool := DBPool.init ttl cap, checkedOut := [] } ops).pool.connection_pointer
      ≤ cap := by
  have h := runOps_inv cap ops { pool := DBPool.init ttl cap, checkedOut := [] }
    ⟨rfl, by show (0 : Int) ≤ cap; omega⟩
  exact h.2

/-- Witness for C2 at a concrete trace: capacity 2, two creations, one
release, one reacquisition. -/
theorem capacity_invariant_witness :
    (1 : Int) ≤ 2 ∧
    (runOps { pool := DBPool.init 10 2, checkedOut := [] }
      [PoolOp.acquire (Except.ok 1) 0, PoolOp.acquire (Except.ok 2) 0,
       PoolOp.releaseSuccess 3,
       PoolOp.acquire (Except.ok 4) 4]).pool.connection_pointer ≤ 2 :=
  ⟨by decide, capacity_invariant 10 2 (by decide) _⟩

/-- C3: the claim says a raising unit of work always closes the handle and
decrements the live count, in the plain and the transactional scope alike.
The plain `manager` does so, but the `except` branch of `transaction`
(lines 93–95) only rolls back and re-raises: at `connection_pointer = 3`
the failing transactional scope re-signals error 42, emits no `closed`
event, and leaves the pool state — including `connection_pointer = 3` —
completely unchanged, even at `now = 999`, far past the TTL. -/
theorem c3_transaction_failure_leaks :
    transactionBody (A := Nat)
      { _connection_pool := [], connection_pointer := 3,
        _pool_size := 5, connection_ttl := 10 }
      { connection := 8, last_update := 0, creation_date := 0 }
      (fun _ => Except.error 42) 999 =
      (Except.error 42,
       { _connection_pool := [], connection_pointer := 3,
         _pool_size := 5, connection_ttl := 10 },
       [Event.rolledBack 8]) :=
  rfl

/-- C4: the claim says that with `ttl = 0` every successful scope closes its
connection and the next acquire creates a fresh one.  The code instead
pushes the record back (since `creation_date + 0 < now` holds one tick
after creation) and the next acquire pops that very record from the idle
list, creating nothing: handle 7 is recycled, not closed. -/
theorem c4_ttl_zero_recycles :
    managerBody (A := Nat)
      { _connection_pool := [], connection_pointer := 1,
        _pool_size := 4, connection_ttl := 0 }
      { connection := 7, last_update := 0, creation_date := 0 }
      (fun _ => Except.ok 0) 1 =
      (Except.ok 0,
       { _connection_pool := [{ connection := 7, last_update := 1, creation_date := 0 }],
         connection_pointer := 1, _pool_size := 4, connection_ttl := 0 },
       []) ∧
    getConnectionStep
      { _connection_pool := [{ connection := 7, last_update := 1, creation_date := 0 }],
        connection_pointer := 1, _pool_size := 4, connection_ttl := 0 }
      (Except.ok 99) 2 =
      GetStepResult.got { connection := 7, last_update := 1, creation_date := 0 }
        { _connection_pool := [], connection_pointer := 1,
          _pool_size := 4, connection_ttl := 0 } :=
  ⟨rfl, rfl⟩

/-- C5: the claim says that with capacity 1 a connection released
successfully within its TTL is handed out again by the next acquire, with
no new connection created.  With `creation_date = 0`, `ttl = 100`,
release at `now = 5` (within TTL) the code closes handle 7 and decrements
the counter to 0, so the next acquire finds an empty idle list and creates
a brand-new connection (handle 99) instead of reusing handle 7. -/
theorem c5_within_ttl_not_reused :
    managerBody (A := Nat)
      { _connection_pool := [], connection_pointer := 1,
        _pool_size := 1, connection_ttl := 100 }
      { connection := 7, last_update := 0, creation_date := 0 }
      (fun _ => Except.ok 0) 5 =
      (Except.ok 0,
       { _connection_pool := [], connection_pointer := 0,
         _pool_size := 1, connection_ttl := 100 },
       [Event.closed 7]) ∧
    getConnectionStep
      { _connection_pool := [], connection_pointer := 0,
        _pool_size := 1, connection_ttl := 100 }
      (Except.ok 99) 6 =
      GetStepResult.got { connection := 99, last_update := 0, creation_date := 6 }
        { _connection_pool := [], connection_pointer := 1,
          _pool_size := 1, connection_ttl := 100 } :=
  ⟨rfl, rfl⟩

/-- C6: the acquire algorithm.  (1) If the idle list is non-empty, the step
pops the most recently appended record (LIFO) and returns it, leaving
`connection_pointer` untouched and creating nothing.  (2) Else, if
`connection_pointer < _pool_size` and the driver succeeds, it returns a new
record with `creation_date = now` and increments `connection_pointer`.
(3) Else the step is a retry that leaves the state unchanged, and (4) the
acquisition loop then sleeps for the fixed delay and runs again. -/
theorem acquire_algorithm (s : DBPool) (cr : Except Nat Nat) (now : Int) :
    (∀ c rest, s._connection_pool = rest ++ [c] →
      getConnectionStep s cr now =
        GetStepResult.got c { s with _connection_pool := rest }) ∧
    (s._connection_pool = [] → s.connection_pointer < s._pool_size →
      ∀ h, cr = Except.ok h →
        getConnectionStep s cr now =
          GetStepResult.got { connection := h, last_update := 0, creation_date := now }
            { s with connection_pointer := s.connection_pointer + 1 }) ∧
    (s._connection_pool = [] → ¬ s.connection_pointer < s._pool_size →
      getConnectionStep s cr now = GetStepResult.retry s) ∧
    (s._connection_pool = [] → ¬ s.connection_pointer < s._pool_size →
      ∀ fuel conns times,
        _get_connection (fuel + 1) s conns times =
          Option.map (fun r => (r.1, Event.slept :: r.2))
            (_get_connection fuel s (fun n => conns (n + 1)) (fun n => times (n + 1)))) := by
  refine ⟨?_, ?_, ?_, ?_⟩
  · intro c rest hpool
    unfold getConnectionStep
    rw [hpool, List.getLast?_concat, List.dropLast_concat]
  · intro hpool hlt h hcr
    unfold getConnectionStep
    rw [hpool, hcr]
    simp [hlt, _create_connection]
  · intro hpool hge
    unfold getConnectionStep
    rw [hpool]
    simp [hge]
  · intro hpool hge fuel conns times
    have hstep : getConnectionStep s (conns 0) (times 0) = GetStepResult.retry s := by
      unfold getConnectionStep
      rw [hpool]
      simp [hge]
    simp only [_get_connection, hstep]
    cases hrec : _get_connection fuel s (fun n => conns (n + 1)) (fun n => times (n + 1)) with
    | none => simp
    | some rp => simp

/-- Witness for C6 at a concrete pool holding one idle record: the acquire
step pops it without creating a connection. -/
theorem acquire_algorithm_witness :
    getConnectionStep
      { _connection_pool := [{ connection := 3, last_update := 0, creation_date := 0 }],
        connection_pointer := 1, _pool_size := 2, connection_ttl := 10 }
      (Except.ok 5) 9 =
      GetStepResult.got { connection := 3, last_update := 0, creation_date := 0 }
        { _connection_pool := [], connection_pointer := 1,
          _pool_size := 2, connection_ttl := 10 } :=
  (acquire_algorithm
    { _connection_pool := [{ connection := 3, last_update := 0, creation_date := 0 }],
      connection_pointer := 1, _pool_size := 2, connection_ttl := 10 }
    (Except.ok 5) 9).1
    { connection := 3, last_update := 0, creation_date := 0 } [] rfl

/-- C7: on success the code does commit then release, and the `committed`
event indeed precedes the release events, as the claim says; but on failure
the claim says rollback is followed by release-on-failure (close plus
decrement) before the error is re-signaled, while the code (lines 93–95)
re-raises straight after the rollback: the event trace of the failing
transactional scope is exactly `[rolledBack 9]` — no `closed` event — and
`connection_pointer` stays at 2. -/
theorem c7_transaction_rollback_without_close :
    transactionBody (A := Nat)
      { _connection_pool := [], connection_pointer := 2,
        _pool_size := 6, connection_ttl := 50 }
      { connection := 9, last_update := 0, creation_date := 0 }
      (fun _ => Except.ok 1) 5 =
      (Except.ok 1,
       { _connection_pool := [], connection_pointer := 1,
         _pool_size := 6, connection_ttl := 50 },
       [Event.committed 9, Event.closed 9]) ∧
    transactionBody (A := Nat)
      { _connection_pool := [], connection_pointer := 2,
        _pool_size := 6, connection_ttl := 50 }
      { connection := 9, last_update := 0, creation_date := 0 }
      (fun _ => Except.error 3) 5 =
      (Except.error 3,
       { _connection_pool := [], connection_pointer := 2,
         _pool_size := 6, connection_ttl := 50 },
       [Event.rolledBack 9]) :=
  ⟨rfl, rfl⟩

/-- C8: if the idle list is empty, capacity is available and the driver
call fails, the acquisition loop returns that error on its very first
iteration — for every remaining fuel and whatever the driver would have
answered on later iterations, so the failed creation attempt is never
retried within the same call. -/
theorem connect_failure_aborts (s : DBPool) (e : Nat) (fuel : Nat)
    (conns : Nat → Except Nat Nat) (times : Nat → Int)
    (hpool : s._connection_pool = [])
    (hlt : s.connection_pointer < s._pool_size)
    (hc : conns 0 = Except.error e) :
    _get_connection (fuel + 1) s conns times = some (Except.error e, []) := by
  have hstep : getConnectionStep s (conns 0) (times 0) = GetStepResult.failed e s := by
    unfold getConnectionStep
    rw [hpool, hc]
    simp [hlt, _create_connection]
  unfold _get_connection
  rw [hstep]

/-- Witness for C8: an empty pool of capacity 3 whose driver fails with
error 13 aborts the acquisition immediately. -/
theorem connect_failure_aborts_witness :
    _get_connection 4
      { _connection_pool := [], connection_pointer := 0,
        _pool_size := 3, connection_ttl := 7 }
      (fun _ => Except.error 13) (fun _ => 0) = some (Except.error 13, []) :=
  connect_failure_aborts
    { _connection_pool := [], connection_pointer := 0,
      _pool_size := 3, connection_ttl := 7 }
    13 3 (fun _ => Except.error 13) (fun _ => 0) rfl (by decide) rfl

/-- C9: teardown (`__del__`) closes the handle of every record in the idle
list, and closes nothing else — every `closed` event it emits names the
handle of some idle record, so checked-out connections are untouched. -/
theorem teardown_closes_idle (s : DBPool) :
    (∀ c ∈ s._connection_pool, Event.closed c.connection ∈ (__del__ s).2) ∧
    (∀ h : Nat, Event.closed h ∈ (__del__ s).2 →
      ∃ c ∈ s._connection_pool, c.connection = h) := by
  constructor
  · intro c hc
    unfold __del__
    rw [destroyLoop_events]
    exact List.mem_map_of_mem _ hc
  · intro h hmem
    unfold __del__ at hmem
    rw [destroyLoop_events] at hmem
    obtain ⟨c, hc, heq⟩ := List.mem_map.mp hmem
    exact ⟨c, hc, by injection heq⟩

/-- Witness for C9: a pool with a single idle record with handle 3 emits a
`closed 3` event during teardown. -/
theorem teardown_closes_idle_witness :
    Event.closed 3 ∈
      (__del__ { _connection_pool := [{ connection := 3, last_update := 1, creation_date := 0 }],
                 connection_pointer := 1, _pool_size := 2, connection_ttl := 5 }).2 :=
  (teardown_closes_idle
    { _connection_pool := [{ connection := 3, last_update := 1, creation_date := 0 }],
      connection_pointer := 1, _pool_size := 2, connection_ttl := 5 }).1
    { connection := 3, last_update := 1, creation_date := 0 } (by decide)

/-- C10: if the driver call raises while the pool is empty and capacity is
available, the acquire step reports the failure with the pool state passed
through untouched: `connection_pointer` is not incremented and the idle
list is not modified. -/
theorem connect_failure_state_unchanged (s : DBPool) (e : Nat) (now : Int)
    (hpool : s._connection_pool = [])
    (hlt : s.connection_pointer < s._pool_size) :
    getConnectionStep s (Except.error e) now = GetStepResult.failed e s := by
  unfold getConnectionStep
  rw [hpool]
  simp [hlt, _create_connection]

/-- Witness for C10: a concrete empty pool with one live connection out of
two is returned unchanged when the driver fails with error 21. -/
theorem connect_failure_state_unchanged_witness :
    getConnectionStep
      { _connection_pool := [], connection_pointer := 1,
        _pool_size := 2, connection_ttl := 5 }
      (Except.error 21) 6 =
      GetStepResult.failed 21
        { _connection_pool := [], connection_pointer := 1,
          _pool_size := 2, connection_ttl := 5 } :=
  connect_failure_state_unchanged
    { _connection_pool := [], connection_pointer := 1,
      _pool_size := 2, connection_ttl := 5 }
    21 6 rfl (by decide)

end Pooling
